import Mathlib

/-!
Shallow embedding of the weather_crawl crawler (src/main.rs) in Lean 4.

The program parses an HTML weather table into a `CrawlResult` and writes it
atomically to disk.  We model:

* Rust panics explicitly with `PanicOr` (indexing out of bounds, integer
  underflow, string byte-slicing off a char boundary, `unwrap` on `None`);
* fallible Rust functions (`TryFrom`, `?`) with `Except` layered under
  `PanicOr` (the combination is `M`);
* `u32::from_str` faithfully (optional leading plus sign, ASCII digits,
  overflow above 2^32 - 1, the `ParseIntError` kinds that can arise);
* `rust_decimal::Decimal` values as scaled integers (mantissa and scale);
  the crate source is not part of this repository, so its string parser is
  modelled from the spec: sign, integer part, optional fractional part;
* the filesystem visible to `write_result_files` as an association list of
  file names to contents inside the destination directory, with a
  `WriteOracle` choosing which of the five I/O steps fails.

Table rows reach `Record::try_from` already tokenized (the HTML query
capability is an external collaborator per the spec), so the assembler is a
function from a list of trimmed cell strings.
-/

/-- Outcome of running Rust code that may panic. -/
inductive PanicOr (α : Type) where
  | panics : PanicOr α
  | value : α → PanicOr α
deriving DecidableEq, Repr

def PanicOr.map {α β : Type} (f : α → β) : PanicOr α → PanicOr β
  | .panics => .panics
  | .value a => .value (f a)

/-- The kinds of `std::num::ParseIntError` that `u32::from_str` can produce. -/
inductive IntErrKind where
  | empty
  | invalidDigit
  | posOverflow
deriving DecidableEq, Repr

deriving instance DecidableEq for Except

/-- Result of Rust code returning `Result<_, ParseIntError>` that may also panic. -/
def M (α : Type) : Type := PanicOr (Except IntErrKind α)

instance {α : Type} [DecidableEq α] : DecidableEq (M α) := by
  unfold M; infer_instance

def M.bind {α β : Type} (m : M α) (f : α → M β) : M β :=
  match m with
  | .panics => .panics
  | .value (.error e) => .value (.error e)
  | .value (.ok a) => f a

def M.lift {α : Type} : PanicOr α → M α
  | .panics => .panics
  | .value a => .value (.ok a)

def M.ofExcept {α : Type} (e : Except IntErrKind α) : M α := .value e

def M.pure {α : Type} (a : α) : M α := .value (.ok a)

/-- Rust `v[i]` on a `Vec`: the element, or a panic when out of bounds. -/
def pIndex (cells : List String) (i : Nat) : PanicOr String :=
  match cells.get? i with
  | some s => .value s
  | none => .panics

/-- Rust `v[a..b].to_vec()`: panics when `b` exceeds the length (here always `a ≤ b`). -/
def pSlice (cells : List String) (a b : Nat) : PanicOr (List String) :=
  if a ≤ b ∧ b ≤ cells.length then .value ((cells.drop a).take (b - a)) else .panics

/-- Numeric value of a list of ASCII digit characters (most significant first). -/
def digitsToNat (cs : List Char) : Nat :=
  cs.foldl (fun acc c => acc * 10 + (c.toNat - '0'.toNat)) 0

/-- Rust `u32::from_str` on the characters of the input: empty input errors with
`Empty`; an optional leading plus sign; then ASCII digits only, erroring with
`InvalidDigit` otherwise; values of 2^32 and above error with `PosOverflow`. -/
def parseU32Core (cs : List Char) : Except IntErrKind Nat :=
  match cs with
  | [] => .error .empty
  | _ =>
    let ds := match cs with
      | '+' :: r => r
      | r => r
    if ds = [] then .error .invalidDigit
    else if ds.all Char.isDigit then
      if digitsToNat ds < 2 ^ 32 then .ok (digitsToNat ds) else .error .posOverflow
    else .error .invalidDigit

/-- Model of `cell.parse::<u32>()` on a Rust string. -/
def parseU32 (s : String) : Except IntErrKind Nat := parseU32Core s.data

/-- Model of `Height::try_from` (src/main.rs:113-121): evaluates `s[..s.len() - 1]`
and parses the remainder as `u32`.  The byte slice panics when the string is
empty (`0 - 1` underflows / the byte index is out of range) and when the last
character is not a single UTF-8 byte (the cut then falls inside a character,
off a char boundary); an ASCII final character occupies one byte, so in that
case the slice drops exactly the last character. -/
def heightTryFrom (s : String) : PanicOr (Except IntErrKind Nat) :=
  match s.data.getLast? with
  | none => .panics
  | some c =>
      if c.toNat < 128 then .value (parseU32Core s.data.dropLast) else .panics

/-- Rust `Result::ok`. -/
def exceptOk {ε α : Type} : Except ε α → Option α
  | .ok a => some a
  | .error _ => none

/-- Enum `RainStatus` (src/main.rs:123-129). -/
inductive RainStatus where
  | Clear
  | Rain
  | Unavailable
  | Unknown
deriving DecidableEq, Repr

/-- Model of `RainStatus::try_from` (src/main.rs:130-141); its error type is
`Infallible`, so it is a total function and `.unwrap()` on it never panics. -/
def RainStatus.tryFrom (s : String) : RainStatus :=
  if s = "●" then .Rain
  else if s = "○" then .Clear
  else if s = "." then .Unavailable
  else .Unknown

/-- Enum `WindDirectionText` (src/main.rs:143-163). -/
inductive WindDirectionText where
  | N | NNW | NW | WNW | W | WSW | SW | SSW
  | S | SSE | SE | ESE | E | ENE | NE | NNE
  | No | Unavailable
deriving DecidableEq, Repr

/-- Model of `WindDirectionText::try_from` (src/main.rs:164-189); error type
`Infallible`, so total and never failing. -/
def WindDirectionText.tryFrom (s : String) : WindDirectionText :=
  if s = "N" then .N
  else if s = "NNW" then .NNW
  else if s = "NW" then .NW
  else if s = "WNW" then .WNW
  else if s = "W" then .W
  else if s = "WSW" then .WSW
  else if s = "SW" then .SW
  else if s = "SSW" then .SSW
  else if s = "S" then .S
  else if s = "SSE" then .SSE
  else if s = "SE" then .SE
  else if s = "ESE" then .ESE
  else if s = "E" then .E
  else if s = "ENE" then .ENE
  else if s = "NE" then .NE
  else if s = "NNE" then .NNE
  else if s = "-" then .No
  else .Unavailable

/-- A `rust_decimal::Decimal` value: mantissa and decimal scale,
so `⟨125, 1⟩` denotes 12.5 and `⟨-32, 1⟩` denotes -3.2. -/
structure Dec where
  mantissa : Int
  scale : Nat
deriving DecidableEq, Repr

/-- Modelled from the spec: `rust_decimal` is an external crate whose source
is not in this repository; per the spec the decimal decoder "parses an
arbitrary-precision decimal (sign, integer part, optional fractional part)".
An optional sign, then digits with at most one decimal point and at least one
digit overall, and nothing else. -/
def decimalTryFromCore (cs : List Char) : Except Unit Dec :=
  let signAndRest : Int × List Char :=
    match cs with
    | '-' :: r => (-1, r)
    | '+' :: r => (1, r)
    | r => (1, r)
  let sign := signAndRest.1
  let rest := signAndRest.2
  let ip := rest.takeWhile Char.isDigit
  let r1 := rest.dropWhile Char.isDigit
  match r1 with
  | [] => if ip = [] then .error () else .ok ⟨sign * digitsToNat ip, 0⟩
  | '.' :: fp =>
      if fp.all Char.isDigit ∧ (ip ≠ [] ∨ fp ≠ []) then
        .ok ⟨sign * digitsToNat (ip ++ fp), fp.length⟩
      else .error ()
  | _ => .error ()

/-- Model of `Decimal::try_from(s)` on a Rust string. -/
def decimalTryFrom (s : String) : Except Unit Dec := decimalTryFromCore s.data

/-- Model of `Decimal::try_from(cell.as_str()).ok()`: the decimal decoder as every
caller uses it — an unparsable cell becomes `none`, never a failure. -/
def decodeDecimal (s : String) : Option Dec := exceptOk (decimalTryFrom s)

/-- Struct `Rain` (src/main.rs:69-78). -/
structure Rain where
  is_raining : RainStatus
  rain15 : Option Dec
  rain60 : Option Dec
  rain3h : Option Dec
  rain6h : Option Dec
  rain12h : Option Dec
  rainday : Option Dec
deriving DecidableEq, Repr

/-- Model of `Rain::try_from` (src/main.rs:79-92): indexes `cell[0]` through `cell[6]`
(a panic when the vector is shorter), applies the total rain-status decoder to
`cell[0]` (its `.unwrap()` cannot panic, the error type is `Infallible`) and
the `.ok()`-wrapped decimal decoder to the rest; it never returns `Err`. -/
def Rain.tryFrom (cell : List String) : M Rain :=
  M.bind (M.lift (pIndex cell 0)) fun c0 =>
  M.bind (M.lift (pIndex cell 1)) fun c1 =>
  M.bind (M.lift (pIndex cell 2)) fun c2 =>
  M.bind (M.lift (pIndex cell 3)) fun c3 =>
  M.bind (M.lift (pIndex cell 4)) fun c4 =>
  M.bind (M.lift (pIndex cell 5)) fun c5 =>
  M.bind (M.lift (pIndex cell 6)) fun c6 =>
  M.pure
    { is_raining := RainStatus.tryFrom c0
      rain15 := decodeDecimal c1
      rain60 := decodeDecimal c2
      rain3h := decodeDecimal c3
      rain6h := decodeDecimal c4
      rain12h := decodeDecimal c5
      rainday := decodeDecimal c6 }

/-- Struct `Wind` (src/main.rs:94-99). -/
structure Wind where
  direction_code : Option Dec
  direction_text : WindDirectionText
  velocity : Option Dec
deriving DecidableEq, Repr

/-- Model of `Wind::try_from` (src/main.rs:100-109): indexes `cell[0]` to `cell[2]`
(a panic when shorter); never returns `Err`. -/
def Wind.tryFrom (cell : List String) : M Wind :=
  M.bind (M.lift (pIndex cell 0)) fun c0 =>
  M.bind (M.lift (pIndex cell 1)) fun c1 =>
  M.bind (M.lift (pIndex cell 2)) fun c2 =>
  M.pure
    { direction_code := decodeDecimal c0
      direction_text := WindDirectionText.tryFrom c1
      velocity := decodeDecimal c2 }

/-- Struct `Record` (src/main.rs:26-38). -/
structure Record where
  id : Nat
  name : String
  height : Option Nat
  rain : Rain
  temperature : Option Dec
  wind1 : Wind
  wind10 : Wind
  humidity : Option Dec
  atmospheric : Option Dec
  address : String
deriving DecidableEq, Repr

/-- Model of `Record::try_from` (src/main.rs:39-67) after the cell tokenization: the
struct literal evaluates its fields in the written order (id, name, height,
rain, temperature, wind1, wind10, humidity, atmospheric, address), so
`cell[0].parse::<u32>()?` runs first and an unparsable id returns `Err`
before any later index is touched; every plain index and both slices panic
when the row is too short, and `Height::try_from(cell[2])` panics on an empty
or non-ASCII-terminated height cell even though its result is `.ok()`-wrapped. -/
def Record.tryFrom (cell : List String) : M Record :=
  M.bind (M.lift (pIndex cell 0)) fun c0 =>
  M.bind (M.ofExcept (parseU32 c0)) fun idv =>
  M.bind (M.lift (pIndex cell 1)) fun c1 =>
  M.bind (M.lift (pIndex cell 2)) fun c2 =>
  M.bind (M.lift (PanicOr.map exceptOk (heightTryFrom c2))) fun heightv =>
  M.bind (M.lift (pSlice cell 3 10)) fun rainCells =>
  M.bind (Rain.tryFrom rainCells) fun rainv =>
  M.bind (M.lift (pIndex cell 10)) fun c10 =>
  M.bind (M.lift (pSlice cell 11 14)) fun w1Cells =>
  M.bind (Wind.tryFrom w1Cells) fun wind1v =>
  M.bind (M.lift (pSlice cell 14 17)) fun w10Cells =>
  M.bind (Wind.tryFrom w10Cells) fun wind10v =>
  M.bind (M.lift (pIndex cell 17)) fun c17 =>
  M.bind (M.lift (pIndex cell 18)) fun c18 =>
  M.bind (M.lift (pIndex cell 19)) fun c19 =>
  M.pure
    { id := idv
      name := c1
      height := heightv
      rain := rainv
      temperature := decodeDecimal c10
      wind1 := wind1v
      wind10 := wind10v
      humidity := decodeDecimal c17
      atmospheric := decodeDecimal c18
      address := c19 }

/-- Struct `CrawlResult` (src/main.rs:20-24). -/
structure CrawlResult where
  observed_at : String
  records : List Record
deriving DecidableEq, Repr

/-- One position of the anchored timestamp pattern
`(\d{4})\.(\d{2})\.(\d{2})\.(\d{2}):(\d{2})$` (src/main.rs:228-231): the
sixteen final characters must be four digit groups separated by periods and
one colon.  `\d` is modelled as an ASCII digit. -/
def tsPatternOK (l : List Char) : Bool :=
  match l with
  | [y1, y2, y3, y4, p1, m1, m2, p2, d1, d2, p3, h1, h2, q, n1, n2] =>
      ([y1, y2, y3, y4, m1, m2, d1, d2, h1, h2, n1, n2].all Char.isDigit) &&
      p1 = '.' && p2 = '.' && p3 = '.' && q = ':'
  | _ => false

/-- The `format!("{}-{}-{}T{}:{}:00+0900", ...)` of src/main.rs:233-236,
applied to the sixteen matched characters. -/
def renderTs (l : List Char) : Option String :=
  match l with
  | [y1, y2, y3, y4, _, m1, m2, _, d1, d2, _, h1, h2, _, n1, n2] =>
      some (⟨[y1, y2, y3, y4]⟩ ++ "-" ++ ⟨[m1, m2]⟩ ++ "-" ++ ⟨[d1, d2]⟩ ++ "T"
        ++ ⟨[h1, h2]⟩ ++ ":" ++ ⟨[n1, n2]⟩ ++ ":00+0900")
  | _ => none

/-- The timestamp extractor of `parse_html` (src/main.rs:223-236): the regex
is end-anchored and every part has fixed width, so it matches exactly when
the caption has at least sixteen characters and its last sixteen characters
fit the pattern; the captured groups are then those characters. -/
def extractObservedAt (caption : String) : Option String :=
  if caption.data.length ≥ 16 ∧ tsPatternOK (caption.data.drop (caption.data.length - 16)) then
    renderTs (caption.data.drop (caption.data.length - 16))
  else none

/-- Contents of one file in the destination directory: empty right after
`File::create`, or holding the serialized `CrawlResult`. -/
inductive FileContent where
  | empty
  | json : CrawlResult → FileContent
deriving DecidableEq, Repr

/-- The destination directory: file name to contents, latest entry first. -/
def FS : Type := List (String × FileContent)

instance : DecidableEq FS := by
  unfold FS; infer_instance

def fsGet (fs : FS) (k : String) : Option FileContent :=
  (fs.find? (fun p => p.1 == k)).map (·.2)

def fsSet (fs : FS) (k : String) (v : FileContent) : FS :=
  (k, v) :: fs.filter (fun p => !(p.1 == k))

def fsDel (fs : FS) (k : String) : FS :=
  fs.filter (fun p => !(p.1 == k))

/-- Which of the five I/O steps of `write_result_files` fails; a failing step
leaves the filesystem as it was at that point and makes the function return
early with `Err` (the `?` operator). -/
structure WriteOracle where
  createDirFails : Bool
  createFileFails : Bool
  writeFails : Bool
  syncFails : Bool
  renameFails : Bool
deriving DecidableEq, Repr

/-- Model of `write_result_files` (src/main.rs:252-259): ensure the directory exists,
create the temporary file named after `observed_at`, serialize into it, sync
it, then rename it over `index.json`.  Returns the final directory contents
and the `std::io::Result`. -/
def write_result_files (o : WriteOracle) (fs : FS) (result : CrawlResult) :
    FS × Except Unit Unit :=
  if o.createDirFails then (fs, .error ()) else
  if o.createFileFails then (fs, .error ()) else
  let fs1 := fsSet fs result.observed_at .empty
  if o.writeFails then (fs1, .error ()) else
  let fs2 := fsSet fs1 result.observed_at (.json result)
  if o.syncFails then (fs2, .error ()) else
  if o.renameFails then (fs2, .error ()) else
  (fsSet (fsDel fs2 result.observed_at) "index.json" (.json result), .ok ())

/-- The `filter_map(|row| Record::try_from(row).ok()).collect()` of
src/main.rs:239-242: rows whose decode returns `Err` are dropped, rows whose
decode panics abort the whole run, surviving records keep row order. -/
def collectRecords : List (List String) → PanicOr (List Record)
  | [] => .value []
  | r :: rs =>
    match Record.tryFrom r with
    | .panics => .panics
    | .value (.error _) => collectRecords rs
    | .value (.ok rec) => PanicOr.map (rec :: ·) (collectRecords rs)

/-- The `CrawlResult` that `parse_html` (src/main.rs:219-250) builds and
passes to the writer: `.panics` when the caption has no trailing timestamp
(the `captures(..).unwrap()` of line 232) or when some row decode panics. -/
def parseHtmlAggregate (caption : String) (rows : List (List String)) :
    PanicOr CrawlResult :=
  match extractObservedAt caption with
  | none => .panics
  | some t => PanicOr.map (fun recs => { observed_at := t, records := recs }) (collectRecords rows)

/-- Model of `parse_html` (src/main.rs:219-250) end to end: builds the aggregate,
invokes `write_result_files` on it (a writer error is printed and swallowed),
and returns `true`. -/
def parse_html (o : WriteOracle) (fs : FS) (caption : String)
    (rows : List (List String)) : PanicOr (FS × Bool) :=
  match parseHtmlAggregate caption rows with
  | .panics => .panics
  | .value result => .value ((write_result_files o fs result).1, true)

/-- The all-steps-succeed write oracle. -/
def oracle0 : WriteOracle :=
  { createDirFails := false, createFileFails := false, writeFails := false
    syncFails := false, renameFails := false }

/-- Sample caption carrying a trailing timestamp, as in the spec. -/
def sampleCaption : String := "관측시각 2023.04.01.09:30"

/-- A well-formed 20-cell row with station id 11. -/
def rowA : List String :=
  ["11", "강릉", "26m", "●", "0.5", "1", "2", "3", "4", "5",
   "12.5", "90", "N", "1.4", "45", "NE", "2.0", "60", "1013.2", "강원 강릉시"]

/-- A well-formed 20-cell row with station id 12. -/
def rowB : List String :=
  ["12", "서울", "85m", "○", "0", "0", "0", "0", "0", "0",
   "13.0", "180", "S", "2.2", "200", "SSW", "2.4", "55", "1012.8", "서울 중구"]

/-- A malformed 17-cell row whose first cell is the header word, which does
not parse as an id. -/
def rowBad17 : List String :=
  ["지점", "지점명", "해발", "강수", "15분", "60분", "3시간", "6시간", "12시간", "일강수",
   "기온", "풍향1", "방위1", "풍속1", "풍향10", "방위10", "풍속10"]

/-- A malformed 17-cell row whose first cell does parse as an id. -/
def row17num : List String :=
  ["5", "강릉", "26m", "●", "0.5", "1", "2", "3", "4", "5",
   "12.5", "90", "N", "1.4", "45", "NE", "2.0"]

/-- A 20-cell row with a parseable id whose height cell is the empty string. -/
def rowEmptyHeight : List String :=
  ["1", "강릉", "", "●", "0.5", "1", "2", "3", "4", "5",
   "12.5", "90", "N", "1.4", "45", "NE", "2.0", "60", "1013.2", "강원 강릉시"]

/-- The same row as `rowEmptyHeight` with a well-formed height cell. -/
def rowHeightOk : List String :=
  ["1", "강릉", "26m", "●", "0.5", "1", "2", "3", "4", "5",
   "12.5", "90", "N", "1.4", "45", "NE", "2.0", "60", "1013.2", "강원 강릉시"]

/-- A 20-cell row whose first cell does not parse as an id. -/
def rowBadId20 : List String :=
  ["xx", "강릉", "26m", "●", "0.5", "1", "2", "3", "4", "5",
   "12.5", "90", "N", "1.4", "45", "NE", "2.0", "60", "1013.2", "강원 강릉시"]

/-- A well-formed 20-cell row with station id 90 and an arbitrary temperature
cell at index 10. -/
def sampleRow (c10 : String) : List String :=
  ["90", "속초", "18m", "●", "1", "2", "3", "4", "5", "6",
   c10, "8", "N", "9", "10", "NE", "11", "50", "1000.5", "강원 속초시"]

/-- Seven rain cells of expected shape. -/
def rainCells7 : List String := ["●", "1", "2", "3", "4", "5", "6"]

/-- Three wind cells of expected shape. -/
def windCells3 : List String := ["90", "N", "1.4"]

theorem M.bind_panics {α β : Type} (f : α → M β) :
    M.bind .panics f = .panics := rfl

theorem M.bind_error {α β : Type} (e : IntErrKind) (f : α → M β) :
    M.bind (.value (.error e)) f = .value (.error e) := rfl

theorem M.bind_ok {α β : Type} (a : α) (f : α → M β) :
    M.bind (.value (.ok a)) f = f a := rfl

theorem M.lift_panics {α : Type} : M.lift (.panics : PanicOr α) = .panics := rfl

theorem M.lift_value {α : Type} (a : α) :
    M.lift (.value a) = .value (.ok a) := rfl

theorem pIndex_of_get (cells : List String) (i : Nat) (s : String)
    (h : cells.get? i = some s) : pIndex cells i = .value s := by
  unfold pIndex
  rw [h]

theorem pIndex_of_none (cells : List String) (i : Nat)
    (h : cells.get? i = none) : pIndex cells i = .panics := by
  unfold pIndex
  rw [h]

theorem pSlice_of_le (cells : List String) (a b : Nat) (hab : a ≤ b)
    (h : b ≤ cells.length) : pSlice cells a b = .value ((cells.drop a).take (b - a)) := by
  unfold pSlice
  rw [if_pos ⟨hab, h⟩]

theorem lenExplicit3 {α : Type} (l : List α) (h : l.length = 3) :
    ∃ a0 a1 a2, l = [a0, a1, a2] := by
  obtain ⟨a0, l, rfl⟩ := List.exists_of_length_succ l h
  rw [List.length_cons] at h
  replace h : l.length = 2 := by omega
  obtain ⟨a1, l, rfl⟩ := List.exists_of_length_succ l h
  rw [List.length_cons] at h
  replace h : l.length = 1 := by omega
  obtain ⟨a2, l, rfl⟩ := List.exists_of_length_succ l h
  rw [List.length_cons] at h
  replace h : l.length = 0 := by omega
  rw [List.length_eq_zero] at h
  subst h
  exact ⟨a0, a1, a2, rfl⟩

theorem lenExplicit7 {α : Type} (l : List α) (h : l.length = 7) :
    ∃ a0 a1 a2 a3 a4 a5 a6, l = [a0, a1, a2, a3, a4, a5, a6] := by
  obtain ⟨a0, l, rfl⟩ := List.exists_of_length_succ l h
  rw [List.length_cons] at h
  replace h : l.length = 6 := by omega
  obtain ⟨a1, l, rfl⟩ := List.exists_of_length_succ l h
  rw [List.length_cons] at h
  replace h : l.length = 5 := by omega
  obtain ⟨a2, l, rfl⟩ := List.exists_of_length_succ l h
  rw [List.length_cons] at h
  replace h : l.length = 4 := by omega
  obtain ⟨a3, l, rfl⟩ := List.exists_of_length_succ l h
  rw [List.length_cons] at h
  replace h : l.length = 3 := by omega
  obtain ⟨a4, l, rfl⟩ := List.exists_of_length_succ l h
  rw [List.length_cons] at h
  replace h : l.length = 2 := by omega
  obtain ⟨a5, l, rfl⟩ := List.exists_of_length_succ l h
  rw [List.length_cons] at h
  replace h : l.length = 1 := by omega
  obtain ⟨a6, l, rfl⟩ := List.exists_of_length_succ l h
  rw [List.length_cons] at h
  replace h : l.length = 0 := by omega
  rw [List.length_eq_zero] at h
  subst h
  exact ⟨a0, a1, a2, a3, a4, a5, a6, rfl⟩

theorem lenExplicit20 {α : Type} (l : List α) (h : l.length = 20) :
    ∃ a0 a1 a2 a3 a4 a5 a6 a7 a8 a9 a10 a11 a12 a13 a14 a15 a16 a17 a18 a19, l = [a0, a1, a2, a3, a4, a5, a6, a7, a8, a9, a10, a11, a12, a13, a14, a15, a16, a17, a18, a19] := by
  obtain ⟨a0, l, rfl⟩ := List.exists_of_length_succ l h
  rw [List.length_cons] at h
  replace h : l.length = 19 := by omega
  obtain ⟨a1, l, rfl⟩ := List.exists_of_length_succ l h
  rw [List.length_cons] at h
  replace h : l.length = 18 := by omega
  obtain ⟨a2, l, rfl⟩ := List.exists_of_length_succ l h
  rw [List.length_cons] at h
  replace h : l.length = 17 := by omega
  obtain ⟨a3, l, rfl⟩ := List.exists_of_length_succ l h
  rw [List.length_cons] at h
  replace h : l.length = 16 := by omega
  obtain ⟨a4, l, rfl⟩ := List.exists_of_length_succ l h
  rw [List.length_cons] at h
  replace h : l.length = 15 := by omega
  obtain ⟨a5, l, rfl⟩ := List.exists_of_length_succ l h
  rw [List.length_cons] at h
  replace h : l.length = 14 := by omega
  obtain ⟨a6, l, rfl⟩ := List.exists_of_length_succ l h
  rw [List.length_cons] at h
  replace h : l.length = 13 := by omega
  obtain ⟨a7, l, rfl⟩ := List.exists_of_length_succ l h
  rw [List.length_cons] at h
  replace h : l.length = 12 := by omega
  obtain ⟨a8, l, rfl⟩ := List.exists_of_length_succ l h
  rw [List.length_cons] at h
  replace h : l.length = 11 := by omega
  obtain ⟨a9, l, rfl⟩ := List.exists_of_length_succ l h
  rw [List.length_cons] at h
  replace h : l.length = 10 := by omega
  obtain ⟨a10, l, rfl⟩ := List.exists_of_length_succ l h
  rw [List.length_cons] at h
  replace h : l.length = 9 := by omega
  obtain ⟨a11, l, rfl⟩ := List.exists_of_length_succ l h
  rw [List.length_cons] at h
  replace h : l.length = 8 := by omega
  obtain ⟨a12, l, rfl⟩ := List.exists_of_length_succ l h
  rw [List.length_cons] at h
  replace h : l.length = 7 := by omega
  obtain ⟨a13, l, rfl⟩ := List.exists_of_length_succ l h
  rw [List.length_cons] at h
  replace h : l.length = 6 := by omega
  obtain ⟨a14, l, rfl⟩ := List.exists_of_length_succ l h
  rw [List.length_cons] at h
  replace h : l.length = 5 := by omega
  obtain ⟨a15, l, rfl⟩ := List.exists_of_length_succ l h
  rw [List.length_cons] at h
  replace h : l.length = 4 := by omega
  obtain ⟨a16, l, rfl⟩ := List.exists_of_length_succ l h
  rw [List.length_cons] at h
  replace h : l.length = 3 := by omega
  obtain ⟨a17, l, rfl⟩ := List.exists_of_length_succ l h
  rw [List.length_cons] at h
  replace h : l.length = 2 := by omega
  obtain ⟨a18, l, rfl⟩ := List.exists_of_length_succ l h
  rw [List.length_cons] at h
  replace h : l.length = 1 := by omega
  obtain ⟨a19, l, rfl⟩ := List.exists_of_length_succ l h
  rw [List.length_cons] at h
  replace h : l.length = 0 := by omega
  rw [List.length_eq_zero] at h
  subst h
  exact ⟨a0, a1, a2, a3, a4, a5, a6, a7, a8, a9, a10, a11, a12, a13, a14, a15, a16, a17, a18, a19, rfl⟩

theorem rain_ok_of_len7 (cells : List String) (h : cells.length = 7) :
    ∃ r, Rain.tryFrom cells = .value (.ok r) := by
  obtain ⟨a0, a1, a2, a3, a4, a5, a6, rfl⟩ := lenExplicit7 cells h
  exact ⟨_, rfl⟩

theorem wind_ok_of_len3 (cells : List String) (h : cells.length = 3) :
    ∃ w, Wind.tryFrom cells = .value (.ok w) := by
  obtain ⟨a0, a1, a2, rfl⟩ := lenExplicit3 cells h
  exact ⟨_, rfl⟩

theorem find_filter_ne (fs : FS) (k q : String) (h : q ≠ k) :
    (fs.filter (fun p => !(p.1 == k))).find? (fun p => p.1 == q) =
      fs.find? (fun p => p.1 == q) := by
  induction fs with
  | nil => rfl
  | cons a t ih =>
    by_cases hk : a.1 = k
    · rw [List.filter_cons_of_neg (by simp [hk]),
        List.find?_cons_of_neg _ (by simp [hk]; exact fun hh => h hh.symm), ih]
    · by_cases hq : a.1 = q
      · rw [List.filter_cons_of_pos (by simp [hk]),
          List.find?_cons_of_pos _ (by simp [hq]),
          List.find?_cons_of_pos _ (by simp [hq])]
      · rw [List.filter_cons_of_pos (by simp [hk]),
          List.find?_cons_of_neg _ (by simp [hq]),
          List.find?_cons_of_neg _ (by simp [hq]), ih]

theorem find_filter_self (fs : FS) (k : String) :
    (fs.filter (fun p => !(p.1 == k))).find? (fun p => p.1 == k) = none := by
  induction fs with
  | nil => rfl
  | cons a t ih =>
    by_cases hk : a.1 = k
    · rw [List.filter_cons_of_neg (by simp [hk]), ih]
    · rw [List.filter_cons_of_pos (by simp [hk]),
        List.find?_cons_of_neg _ (by simp [hk]), ih]

theorem fsGet_set_self (fs : FS) (k : String) (v : FileContent) :
    fsGet (fsSet fs k v) k = some v := by
  simp [fsGet, fsSet, List.find?]

theorem fsGet_set_ne (fs : FS) (k q : String) (v : FileContent) (h : q ≠ k) :
    fsGet (fsSet fs k v) q = fsGet fs q := by
  have hk : (k == q) = false := by
    simp
    exact fun hkq => h hkq.symm
  simp [fsGet, fsSet, List.find?, hk, find_filter_ne fs k q h]

theorem fsGet_del_self (fs : FS) (k : String) :
    fsGet (fsDel fs k) k = none := by
  simp [fsGet, fsDel, find_filter_self]

theorem collectRecords_of_all_err (rows : List (List String))
    (h : ∀ r ∈ rows, ∃ e, Record.tryFrom r = .value (.error e)) :
    collectRecords rows = .value [] := by
  induction rows with
  | nil => rfl
  | cons r rs ih =>
    obtain ⟨e, he⟩ := h r (by simp)
    unfold collectRecords
    rw [he]
    exact ih (fun q hq => h q (by simp [hq]))

/-- C6: the rain-status decoder is a total function on strings that never
fails: the filled-circle glyph maps to Rain, the open-circle glyph to Clear,
the single period to Unavailable, and every other string (including the empty
string) to Unknown. -/
theorem C6_rain_status_total :
    RainStatus.tryFrom "●" = .Rain ∧
    RainStatus.tryFrom "○" = .Clear ∧
    RainStatus.tryFrom "." = .Unavailable ∧
    ∀ s : String, s ≠ "●" → s ≠ "○" → s ≠ "." → RainStatus.tryFrom s = .Unknown := by
  refine ⟨rfl, rfl, rfl, ?_⟩
  intro s h1 h2 h3
  unfold RainStatus.tryFrom
  rw [if_neg h1, if_neg h2, if_neg h3]

/-- C6 witness: the general branch applied to concrete other strings,
including the empty string. -/
theorem C6_rain_status_total_witness :
    RainStatus.tryFrom "xyz" = .Unknown ∧ RainStatus.tryFrom "" = .Unknown :=
  ⟨C6_rain_status_total.2.2.2 "xyz" (by decide) (by decide) (by decide),
   C6_rain_status_total.2.2.2 "" (by decide) (by decide) (by decide)⟩

/-- C7: the wind-direction decoder is a total function on strings that never
fails: each of the 16 compass abbreviations maps to its own variant, the
hyphen token maps to No, and every other string maps to Unavailable. -/
theorem C7_wind_direction_total :
    WindDirectionText.tryFrom "N" = .N ∧
    WindDirectionText.tryFrom "NNW" = .NNW ∧
    WindDirectionText.tryFrom "NW" = .NW ∧
    WindDirectionText.tryFrom "WNW" = .WNW ∧
    WindDirectionText.tryFrom "W" = .W ∧
    WindDirectionText.tryFrom "WSW" = .WSW ∧
    WindDirectionText.tryFrom "SW" = .SW ∧
    WindDirectionText.tryFrom "SSW" = .SSW ∧
    WindDirectionText.tryFrom "S" = .S ∧
    WindDirectionText.tryFrom "SSE" = .SSE ∧
    WindDirectionText.tryFrom "SE" = .SE ∧
    WindDirectionText.tryFrom "ESE" = .ESE ∧
    WindDirectionText.tryFrom "E" = .E ∧
    WindDirectionText.tryFrom "ENE" = .ENE ∧
    WindDirectionText.tryFrom "NE" = .NE ∧
    WindDirectionText.tryFrom "NNE" = .NNE ∧
    WindDirectionText.tryFrom "-" = .No ∧
    ∀ s : String,
      s ∉ (["N", "NNW", "NW", "WNW", "W", "WSW", "SW", "SSW", "S", "SSE",
        "SE", "ESE", "E", "ENE", "NE", "NNE", "-"] : List String) →
      WindDirectionText.tryFrom s = .Unavailable := by
  refine ⟨rfl, rfl, rfl, rfl, rfl, rfl, rfl, rfl, rfl, rfl, rfl, rfl, rfl,
    rfl, rfl, rfl, rfl, ?_⟩
  intro s hs
  simp only [List.mem_cons, List.mem_singleton, not_or] at hs
  obtain ⟨h1, h2, h3, h4, h5, h6, h7, h8, h9, h10, h11, h12, h13, h14, h15,
    h16, h17, -⟩ := hs
  unfold WindDirectionText.tryFrom
  rw [if_neg h1, if_neg h2, if_neg h3, if_neg h4, if_neg h5, if_neg h6,
    if_neg h7, if_neg h8, if_neg h9, if_neg h10, if_neg h11, if_neg h12,
    if_neg h13, if_neg h14, if_neg h15, if_neg h16, if_neg h17]

/-- C7 witness: the general branch applied to the concrete string "q". -/
theorem C7_wind_direction_total_witness :
    WindDirectionText.tryFrom "q" = .Unavailable :=
  C7_wind_direction_total.2.2.2.2.2.2.2.2.2.2.2.2.2.2.2.2.2 "q" (by decide)

/-- C8: the decimal decoder returns an explicit absence (none) rather than an
error whenever its input does not parse as a signed decimal number; in
particular 12.5, the single period, the empty string and -3.2 decode as
stated, and the record assembler never treats an unparsable decimal cell as
fatal (here: any temperature cell whatsoever still yields a record, the cell
decoding to its optional value). -/
theorem C8_decimal_decoder :
    (∀ s : String, decimalTryFrom s = .error () → decodeDecimal s = none) ∧
    decodeDecimal "12.5" = some ⟨125, 1⟩ ∧
    decodeDecimal "." = none ∧
    decodeDecimal "" = none ∧
    decodeDecimal "-3.2" = some ⟨-32, 1⟩ ∧
    ∀ c10 : String, Record.tryFrom (sampleRow c10) =
      .value (.ok
        { id := 90
          name := "속초"
          height := some 18
          rain :=
            { is_raining := .Rain, rain15 := some ⟨1, 0⟩, rain60 := some ⟨2, 0⟩
              rain3h := some ⟨3, 0⟩, rain6h := some ⟨4, 0⟩, rain12h := some ⟨5, 0⟩
              rainday := some ⟨6, 0⟩ }
          temperature := decodeDecimal c10
          wind1 :=
            { direction_code := some ⟨8, 0⟩, direction_text := .N
              velocity := some ⟨9, 0⟩ }
          wind10 :=
            { direction_code := some ⟨10, 0⟩, direction_text := .NE
              velocity := some ⟨11, 0⟩ }
          humidity := some ⟨50, 0⟩
          atmospheric := some ⟨10005, 1⟩
          address := "강원 속초시" }) := by
  refine ⟨?_, by decide, by decide, by decide, by decide, ?_⟩
  · intro s hy
    simp [decodeDecimal, hy, exceptOk]
  · intro c10
    rfl

/-- C8 witness: the absence branch applied at the concrete unparsable
input consisting of a single period. -/
theorem C8_decimal_decoder_witness :
    decimalTryFrom "." = .error () ∧ decodeDecimal "." = none :=
  ⟨by decide, C8_decimal_decoder.1 "." (by decide)⟩

/-- C2 (code bug evaluation): the height decoder on "10m" strips the suffix
and returns 10, on "m" fails with the declared parse error, but on the empty
string it panics (the byte slice index underflows) instead of failing with a
declared TooShort error as the claim states. -/
theorem C2_height_decoder_eval :
    heightTryFrom "10m" = .value (.ok 10) ∧
    heightTryFrom "m" = .value (.error .empty) ∧
    heightTryFrom "" = .panics := by
  refine ⟨by decide, by decide, rfl⟩

/-- C3 (code bug evaluation): a 20-cell row with parseable id 1 whose height
cell is the empty string makes the record assembler panic instead of
producing a record with an absent height; the identical row with a
well-formed height cell yields a record with exactly that id. -/
theorem C3_empty_height_cell_panics :
    rowEmptyHeight.length = 20 ∧
    parseU32 "1" = .ok 1 ∧
    Record.tryFrom rowEmptyHeight = .panics ∧
    (Record.tryFrom rowHeightOk).map (Except.map Record.id) = .value (.ok 1) := by
  exact ⟨by decide, by decide, by decide, by decide⟩

/-- C1 counterexample: a concrete table row with 17 cells whose first cell
parses as an id is NOT rejected without panicking — the record assembler
panics on it (out-of-bounds indexing), refuting the claim as stated. -/
theorem C1_short_row_panics :
    row17num.length = 17 ∧ Record.tryFrom row17num = .panics :=
  ⟨by decide, by decide⟩

/-- C1 (amended): a row whose first cell fails to parse as a u32 id — in
particular a malformed short row such as a header row — is rejected with a
declared error, without a panic and without a partial record; and the
end-to-end table of 3 rows, one malformed with 17 cells and an unparsable
first cell, yields a CrawlResult with exactly 2 records in original row
order plus the extracted observation timestamp. -/
theorem C1_short_row_rejection_amended :
    (∀ (cells : List String) (c0 : String) (e : IntErrKind),
      cells.get? 0 = some c0 → parseU32 c0 = .error e →
      Record.tryFrom cells = .value (.error e)) ∧
    (parseHtmlAggregate sampleCaption [rowA, rowBad17, rowB]).map
        (fun c => (c.observed_at, c.records.map Record.id)) =
      .value ("2023-04-01T09:30:00+0900", [11, 12]) := by
  constructor
  · intro cells c0 e h0 he
    unfold Record.tryFrom
    simp only [pIndex_of_get cells 0 c0 h0, M.lift_value, M.bind_ok, he,
      M.ofExcept, M.bind]
  · decide

/-- C1 witness: the rejection branch applied to the concrete 17-cell header
row, whose first cell fails u32 parsing with an invalid digit. -/
theorem C1_short_row_rejection_amended_witness :
    Record.tryFrom rowBad17 = .value (.error .invalidDigit) :=
  C1_short_row_rejection_amended.1 rowBad17 "지점" .invalidDigit (by decide)
    (by decide)

/-- Reduction of the record assembler on an explicit 20-cell row: everything
is determined up to the two decode steps that can fail or panic — the id
parse and the height decode. -/
theorem record_tryFrom_explicit
    (a0 a1 a2 a3 a4 a5 a6 a7 a8 a9 b0 b1 b2 b3 b4 b5 b6 b7 b8 b9 : String) :
    Record.tryFrom [a0, a1, a2, a3, a4, a5, a6, a7, a8, a9,
      b0, b1, b2, b3, b4, b5, b6, b7, b8, b9] =
    M.bind (M.ofExcept (parseU32 a0)) fun idv =>
    M.bind (M.lift (PanicOr.map exceptOk (heightTryFrom a2))) fun heightv =>
    M.pure
      { id := idv
        name := a1
        height := heightv
        rain :=
          { is_raining := RainStatus.tryFrom a3, rain15 := decodeDecimal a4
            rain60 := decodeDecimal a5, rain3h := decodeDecimal a6
            rain6h := decodeDecimal a7, rain12h := decodeDecimal a8
            rainday := decodeDecimal a9 }
        temperature := decodeDecimal b0
        wind1 :=
          { direction_code := decodeDecimal b1
            direction_text := WindDirectionText.tryFrom b2
            velocity := decodeDecimal b3 }
        wind10 :=
          { direction_code := decodeDecimal b4
            direction_text := WindDirectionText.tryFrom b5
            velocity := decodeDecimal b6 }
        humidity := decodeDecimal b7
        atmospheric := decodeDecimal b8
        address := b9 } := rfl

/-- C10: the error branches of the rain and wind converters are unreachable —
on cell vectors of the expected lengths (7 for rain, 3 for wind) they always
return Ok — so the only decode step that can make the record assembler return
an error (as opposed to panicking) on a 20-cell row is the id parse of the
first cell, and the returned error is exactly the id parse error. -/
theorem C10_only_id_errors :
    (∀ cells : List String, cells.length = 7 →
      ∃ r, Rain.tryFrom cells = .value (.ok r)) ∧
    (∀ cells : List String, cells.length = 3 →
      ∃ w, Wind.tryFrom cells = .value (.ok w)) ∧
    (∀ (cells : List String) (e : IntErrKind), cells.length = 20 →
      Record.tryFrom cells = .value (.error e) →
      parseU32 (cells.getD 0 "") = .error e) := by
  refine ⟨rain_ok_of_len7, wind_ok_of_len3, ?_⟩
  intro cells e h20 hr
  obtain ⟨a0, a1, a2, a3, a4, a5, a6, a7, a8, a9, b0, b1, b2, b3, b4, b5, b6,
    b7, b8, b9, rfl⟩ := lenExplicit20 cells h20
  rw [record_tryFrom_explicit] at hr
  show parseU32 a0 = .error e
  cases hid : parseU32 a0 with
  | error e0 =>
    rw [hid] at hr
    simp only [M.ofExcept, M.bind] at hr
    injection hr with h1
    injection h1 with h2
    rw [h2]
  | ok v =>
    rw [hid] at hr
    cases hh : heightTryFrom a2 with
    | panics =>
      rw [hh] at hr
      simp only [M.ofExcept, M.bind, M.lift, PanicOr.map] at hr
      exact PanicOr.noConfusion hr
    | value hv =>
      rw [hh] at hr
      simp only [M.ofExcept, M.bind, M.lift, M.pure, PanicOr.map] at hr
      injection hr with h1
      exact Except.noConfusion h1

/-- C10 witness: the three branches applied at concrete inputs — the sample
rain and wind cell vectors, and the concrete 20-cell row whose first cell is
"xx", whose rejection error is exactly the id parse error. -/
theorem C10_only_id_errors_witness :
    (∃ r, Rain.tryFrom rainCells7 = .value (.ok r)) ∧
    (∃ w, Wind.tryFrom windCells3 = .value (.ok w)) ∧
    parseU32 (rowBadId20.getD 0 "") = .error .invalidDigit :=
  ⟨C10_only_id_errors.1 rainCells7 (by decide),
   C10_only_id_errors.2.1 windCells3 (by decide),
   C10_only_id_errors.2.2 rowBadId20 .invalidDigit (by decide) (by decide)⟩

/-- C4: the timestamp extractor, given any caption ending in the pattern
YYYY.MM.DD.HH:MM (digits modelled as ASCII digits, matching the end-anchored
regular expression of the code), returns the normalized string
YYYY-MM-DDTHH:MM:00+0900; the spec example caption yields
2023-04-01T09:30:00+0900; and when no such trailing pattern is present the
whole run fails (the unwrap panics before any row is decoded or anything is
written), not a single row. -/
theorem C4_timestamp_extractor :
    (∀ (caption : String) (o : WriteOracle) (fs : FS) (rows : List (List String)),
      extractObservedAt caption = none → parse_html o fs caption rows = .panics) ∧
    (∀ (pre : String) (y1 y2 y3 y4 m1 m2 d1 d2 h1 h2 n1 n2 : Char),
      ([y1, y2, y3, y4, m1, m2, d1, d2, h1, h2, n1, n2].all Char.isDigit) = true →
      extractObservedAt
          (pre ++ ⟨[y1, y2, y3, y4, '.', m1, m2, '.', d1, d2, '.', h1, h2, ':', n1, n2]⟩) =
        some ((⟨[y1, y2, y3, y4]⟩ : String) ++ "-" ++ ⟨[m1, m2]⟩ ++ "-" ++ ⟨[d1, d2]⟩
          ++ "T" ++ ⟨[h1, h2]⟩ ++ ":" ++ ⟨[n1, n2]⟩ ++ ":00+0900")) ∧
    extractObservedAt sampleCaption = some "2023-04-01T09:30:00+0900" := by
  refine ⟨?_, ?_, by decide⟩
  · intro caption o fs rows h
    unfold parse_html parseHtmlAggregate
    rw [h]
  · intro pre y1 y2 y3 y4 m1 m2 d1 d2 h1 h2 n1 n2 hd
    unfold extractObservedAt
    rw [String.data_append]
    have hlen : (pre.data ++ [y1, y2, y3, y4, '.', m1, m2, '.', d1, d2, '.',
        h1, h2, ':', n1, n2]).length = pre.data.length + 16 := by
      simp [List.length_append]
    rw [hlen]
    have hdrop : (pre.data ++ [y1, y2, y3, y4, '.', m1, m2, '.', d1, d2, '.',
        h1, h2, ':', n1, n2]).drop (pre.data.length + 16 - 16) =
        [y1, y2, y3, y4, '.', m1, m2, '.', d1, d2, '.', h1, h2, ':', n1, n2] := by
      have he : pre.data.length + 16 - 16 = pre.data.length := by omega
      rw [he, List.drop_left]
    rw [hdrop]
    have hpat : tsPatternOK [y1, y2, y3, y4, '.', m1, m2, '.', d1, d2, '.',
        h1, h2, ':', n1, n2] = true := by
      simp only [tsPatternOK]
      simp only [List.all_cons, List.all_nil, Bool.and_true] at hd ⊢
      simp [hd]
    rw [if_pos ⟨by omega, hpat⟩]
    rfl

/-- C4 witness: the fatal branch applied at a concrete caption with no
trailing timestamp, and the positive branch applied at the concrete spec
caption split into prefix and pattern characters. -/
theorem C4_timestamp_extractor_witness :
    parse_html oracle0 [] "no timestamp here" [] = .panics ∧
    extractObservedAt ("관측시각 " ++
        ⟨['2', '0', '2', '3', '.', '0', '4', '.', '0', '1', '.', '0', '9',
          ':', '3', '0']⟩) =
      some ((⟨['2', '0', '2', '3']⟩ : String) ++ "-" ++ ⟨['0', '4']⟩ ++ "-"
        ++ ⟨['0', '1']⟩ ++ "T" ++ ⟨['0', '9']⟩ ++ ":" ++ ⟨['3', '0']⟩
        ++ ":00+0900") :=
  ⟨C4_timestamp_extractor.1 "no timestamp here" oracle0 [] [] (by decide),
   C4_timestamp_extractor.2.1 "관측시각 " '2' '0' '2' '3' '0' '4' '0' '1' '0'
     '9' '3' '0' (by decide)⟩

/-- C5: the result writer serializes the CrawlResult into a temporary file
named after the observation timestamp inside the destination directory,
syncs it, and only then renames it over the canonical index.json; whichever
of the five steps fails, the previously existing canonical file is left
unchanged, and on success the canonical file holds exactly the serialized
result (the rename being the single visibility-changing operation, the
temporary name no longer exists afterwards). -/
theorem C5_atomic_publish (o : WriteOracle) (fs : FS) (r : CrawlResult)
    (hne : r.observed_at ≠ "index.json") :
    ((write_result_files o fs r).2 = .error () →
      fsGet (write_result_files o fs r).1 "index.json" = fsGet fs "index.json") ∧
    ((write_result_files o fs r).2 = .ok () →
      fsGet (write_result_files o fs r).1 "index.json" = some (.json r) ∧
      fsGet (write_result_files o fs r).1 r.observed_at = none) := by
  have hne' : "index.json" ≠ r.observed_at := fun hh => hne hh.symm
  rcases o with ⟨cd, cf, w, sy, rn⟩
  cases cd <;> cases cf <;> cases w <;> cases sy <;> cases rn <;>
    simp [write_result_files, fsGet_set_self, fsGet_del_self,
      fsGet_set_ne _ _ _ _ hne', fsGet_set_ne _ _ _ _ hne]

/-- C5 witness: a run whose serialization step fails after the temporary
file was created leaves the previously present canonical file exactly as it
was; a fully successful run installs the new result under index.json. -/
theorem C5_atomic_publish_witness :
    ((write_result_files ⟨false, false, true, false, false⟩
        [("index.json", .json ⟨"old", []⟩)] ⟨"2023-04-01T09:30:00+0900", []⟩).2
      = .error ()) ∧
    fsGet (write_result_files ⟨false, false, true, false, false⟩
        [("index.json", .json ⟨"old", []⟩)] ⟨"2023-04-01T09:30:00+0900", []⟩).1
        "index.json" = some (.json ⟨"old", []⟩) ∧
    fsGet (write_result_files oracle0
        [("index.json", .json ⟨"old", []⟩)] ⟨"2023-04-01T09:30:00+0900", []⟩).1
        "index.json" = some (.json ⟨"2023-04-01T09:30:00+0900", []⟩) := by
  refine ⟨by decide, ?_, ?_⟩
  · have h := C5_atomic_publish ⟨false, false, true, false, false⟩
      [("index.json", .json ⟨"old", []⟩)] ⟨"2023-04-01T09:30:00+0900", []⟩
      (by decide)
    rw [h.1 (by decide)]
    decide
  · have h := C5_atomic_publish oracle0
      [("index.json", .json ⟨"old", []⟩)] ⟨"2023-04-01T09:30:00+0900", []⟩
      (by decide)
    exact (h.2 (by decide)).1

/-- C9: for every caption with a valid trailing timestamp, when every row
fails decoding with a declared error the pipeline still builds the aggregate
with an empty records sequence and still invokes the writer on it with the
extracted observation timestamp. -/
theorem C9_empty_records_persisted (o : WriteOracle) (fs : FS)
    (caption : String) (rows : List (List String)) (t : String)
    (hc : extractObservedAt caption = some t)
    (hrows : ∀ r ∈ rows, ∃ e, Record.tryFrom r = .value (.error e)) :
    parseHtmlAggregate caption rows = .value { observed_at := t, records := [] } ∧
    parse_html o fs caption rows =
      .value ((write_result_files o fs { observed_at := t, records := [] }).1,
        true) := by
  have hagg : parseHtmlAggregate caption rows =
      .value { observed_at := t, records := [] } := by
    unfold parseHtmlAggregate
    rw [hc, collectRecords_of_all_err rows hrows]
    rfl
  refine ⟨hagg, ?_⟩
  unfold parse_html
  rw [hagg]

/-- C9 witness: the pipeline applied to the concrete spec caption and a
single malformed row; the writer runs on the empty aggregate and installs
it as index.json. -/
theorem C9_empty_records_persisted_witness :
    parse_html oracle0 [] sampleCaption [["x"]] =
      .value ((write_result_files oracle0 []
        { observed_at := "2023-04-01T09:30:00+0900", records := [] }).1,
        true) :=
  (C9_empty_records_persisted oracle0 [] sampleCaption [["x"]]
    "2023-04-01T09:30:00+0900" (by decide)
    (by
      intro r hr
      simp only [List.mem_singleton] at hr
      subst hr
      exact ⟨.invalidDigit, by decide⟩)).2
